import Mathlib

/-!
Verification of the asynchronous-wait and event-counter core of
`src/auth/testapp/src/common_main.cc`.

The embedding follows the C++ source directly:

* `FutureStatus` models `::firebase::kFutureStatusInvalid/Pending/Complete`.
* `FutureEnv` models one asynchronous operation together with its external
  environment: `statusAt n` is the status the loop observes after `n` calls
  to `ProcessEvents`, `pump n` the boolean returned by the `n`-th
  `ProcessEvents(100)` call, and `error` / `errorMessage` the settled error
  code and the (possibly null) C string `future.error_message()`.
* `Report` is one `LogMessage` emission, with one constructor per format
  string of the modelled functions; classification predicates
  (`Report.isError`, …) read the `ERROR:` prefix structure off the source.
* `WaitForFuture` is the function of the same name (lines 74–105), with a
  fuel bound on the polling loop; it returns `none` only when the fuel runs
  out while the operation is still pending, and otherwise
  `some (abort, pumpCalls, reports)`.
* `WaitForSignInFuture` is lines 107–123; user pointers are modelled as
  integers with `0` for `nullptr`, and `FutureEnv.result` models the
  `const User* const*` returned by `sign_in_future.result()` (`none` for a
  null pointer).
* `AuthStateChangeCounter` / `IdTokenChangeCounter` are the two listener
  classes (lines 170–224), with their `CompleteTest` overloads.
-/

namespace QuickstartAuth

/-- Status of a `FutureBase`, as tested by `WaitForFuture`. -/
inductive FutureStatus where
  | invalid
  | pending
  | complete
deriving DecidableEq, Repr

/-- One asynchronous operation together with the behaviour of its
environment, indexed by how many `ProcessEvents` calls have happened:
`statusAt n` is `future.status()` observed after `n` pump calls, `pump n`
the result of the `n`-th `ProcessEvents(100)` call, `error` the settled
`future.error()`, `errorMessage` the C string `future.error_message()`
(`none` = null pointer), and `result` the pointed-to `User*` behind
`sign_in_future.result()` (`none` = `result()` returned null). -/
structure FutureEnv where
  statusAt : Nat → FutureStatus
  pump : Nat → Bool
  error : Int
  errorMessage : Option String
  result : Option Int

/-- One `LogMessage` call of the modelled functions, one constructor per
format string, carrying the non-constant arguments that are printed. -/
inductive Report where
  /-- `"ERROR: Future for %s is invalid"` (line 78). -/
  | invalidFuture (fn : String)
  /-- `"  Calling %s..."` (line 83). -/
  | calling (fn : String)
  /-- `"%s completed as expected"` (line 94, `error_message` non-null). -/
  | completedExpected (fn : String)
  /-- `"%s completed as expected, error: %d '%s'"` (line 96, null message). -/
  | completedExpectedNullMsg (fn : String) (error : Int)
  /-- `"ERROR: %s completed with error: %d, `%s`"` (line 100). -/
  | completedError (fn : String) (error : Int) (msg : Option String)
  /-- `"ERROR: future's user (%x) and current_user (%x) don't match"` (line 117). -/
  | userMismatch (fn : String) (signInUser currentUser : Int)
  /-- `"%s<listener> called %d time%s on %s."` (lines 188, 216): `kind` is the
  listener class name, `success` decides the `"ERROR: "` prefix. -/
  | counterReport (kind : String) (success : Bool) (count : Int) (testName : String)
  /-- `"On...Changed User %p (... changes %d)"` (lines 176, 204). -/
  | notifiedLog (kind : String) (count : Int)
deriving DecidableEq, Repr

/-- A report carrying the `"ERROR: "` prefix in the source. -/
def Report.isError : Report → Bool
  | .invalidFuture _ => true
  | .completedError _ _ _ => true
  | .userMismatch _ _ _ => true
  | .counterReport _ success _ _ => !success
  | _ => false

/-- A report emitted by the completion-comparison block of `WaitForFuture`
(lines 89–103): success or mismatch, as opposed to progress logging. -/
def Report.isCompletion : Report → Bool
  | .completedExpected _ => true
  | .completedExpectedNullMsg _ _ => true
  | .completedError _ _ _ => true
  | _ => false

/-- A success-classified completion report (`error == expected_error`). -/
def Report.isSuccessCompletion : Report → Bool
  | .completedExpected _ => true
  | .completedExpectedNullMsg _ _ => true
  | _ => false

/-- Whether an error code `c` appears among the integer error-code arguments
actually formatted into the report. -/
def Report.mentionsCode : Report → Int → Bool
  | .completedExpectedNullMsg _ e, c => e == c
  | .completedError _ e _, c => e == c
  | _, _ => false

/-- The loop `while (future.status() == kFutureStatusPending) { if
(ProcessEvents(100)) return true; }` (lines 84–86), fuel-bounded: from
`calls` pump calls already made, returns `some (shutdown, totalCalls)` when
the loop exits within `fuel` status checks, `none` when fuel runs out. -/
def waitLoop (env : FutureEnv) (calls : Nat) : Nat → Option (Bool × Nat)
  | 0 => none
  | fuel + 1 =>
    if env.statusAt calls = FutureStatus.pending then
      if env.pump calls then some (true, calls + 1)
      else waitLoop env (calls + 1) fuel
    else some (false, calls)

/-- The error-comparison block of `WaitForFuture` (lines 90–102): note the
source logs the short success message when `error_message` is non-null and
the long one (printing the null pointer) when it is null. -/
def settledReport (fn : String) (error expected : Int) (msg : Option String) : Report :=
  if error = expected then
    match msg with
    | some _ => Report.completedExpected fn
    | none => Report.completedExpectedNullMsg fn error
  else Report.completedError fn error msg

/-- `WaitForFuture(future, fn, expected_error, log_error)` (lines 74–105).
Returns `some (abort, pumpCalls, reports)`: the C++ return value, the number
of `ProcessEvents` calls made, and the `LogMessage` emissions in order;
`none` iff the fuel ran out while the future was still pending. -/
def WaitForFuture (env : FutureEnv) (fn : String) (expected : Int)
    (log_error : Bool) (fuel : Nat) : Option (Bool × Nat × List Report) :=
  if env.statusAt 0 = FutureStatus.invalid then
    some (false, 0, [Report.invalidFuture fn])
  else
    match waitLoop env 0 fuel with
    | none => none
    | some (true, calls) => some (true, calls, [Report.calling fn])
    | some (false, calls) =>
      if log_error then
        some (false, calls,
          [Report.calling fn, settledReport fn env.error expected env.errorMessage])
      else
        some (false, calls, [Report.calling fn])

/-- `WaitForSignInFuture(sign_in_future, fn, expected_error, auth)`
(lines 107–123). `currentUser` models `auth->current_user()` as a pointer
value (`0` = null); the dereference `sign_in_user_ptr == nullptr ? nullptr :
*sign_in_user_ptr` is `Option.getD 0` on `env.result`. -/
def WaitForSignInFuture (env : FutureEnv) (fn : String) (expected : Int)
    (currentUser : Int) (fuel : Nat) : Option (Bool × List Report) :=
  match WaitForFuture env fn expected true fuel with
  | none => none
  | some (true, _, rs) => some (true, rs)
  | some (false, _, rs) =>
    let signInUser : Int := env.result.getD 0
    if signInUser ≠ currentUser then
      some (false, rs ++ [Report.userMismatch fn signInUser currentUser])
    else
      some (false, rs)

/-- `AuthStateChangeCounter` (lines 170–196): owns `num_state_changes_`. -/
structure AuthStateChangeCounter where
  num_state_changes : Int
deriving DecidableEq, Repr

/-- The constructor `AuthStateChangeCounter() : num_state_changes_(0)`. -/
def AuthStateChangeCounter.init : AuthStateChangeCounter := ⟨0⟩

/-- `OnAuthStateChanged` (lines 174–178): increment, then log. -/
def AuthStateChangeCounter.onAuthStateChanged (c : AuthStateChangeCounter) :
    AuthStateChangeCounter × Report :=
  let n := c.num_state_changes + 1
  (⟨n⟩, Report.notifiedLog "OnAuthStateChanged" n)

/-- `n` successive `OnAuthStateChanged` notifications (states only). -/
def AuthStateChangeCounter.notifyN (c : AuthStateChangeCounter) : Nat → AuthStateChangeCounter
  | 0 => c
  | n + 1 => ((c.notifyN n).onAuthStateChanged).1

/-- Two-argument `CompleteTest(test_name, min_state_changes,
max_state_changes)` (lines 184–192): compute `success`, log (with `ERROR: `
prefix iff failure), reset the count to 0. -/
def AuthStateChangeCounter.completeTest (c : AuthStateChangeCounter)
    (test_name : String) (lo hi : Int) : AuthStateChangeCounter × Report :=
  let success := decide (lo ≤ c.num_state_changes ∧ c.num_state_changes ≤ hi)
  (⟨0⟩, Report.counterReport "AuthStateListener" success c.num_state_changes test_name)

/-- One-argument `CompleteTest(test_name, expected_state_changes)`
(lines 180–182), delegating to the two-argument overload. -/
def AuthStateChangeCounter.completeTestExact (c : AuthStateChangeCounter)
    (test_name : String) (n : Int) : AuthStateChangeCounter × Report :=
  c.completeTest test_name n n

/-- `IdTokenChangeCounter` (lines 198–224): owns `num_token_changes_`. -/
structure IdTokenChangeCounter where
  num_token_changes : Int
deriving DecidableEq, Repr

/-- The constructor `IdTokenChangeCounter() : num_token_changes_(0)`. -/
def IdTokenChangeCounter.init : IdTokenChangeCounter := ⟨0⟩

/-- `OnIdTokenChanged` (lines 202–206): increment, then log. -/
def IdTokenChangeCounter.onIdTokenChanged (c : IdTokenChangeCounter) :
    IdTokenChangeCounter × Report :=
  let n := c.num_token_changes + 1
  (⟨n⟩, Report.notifiedLog "OnIdTokenChanged" n)

/-- `n` successive `OnIdTokenChanged` notifications (states only). -/
def IdTokenChangeCounter.notifyN (c : IdTokenChangeCounter) : Nat → IdTokenChangeCounter
  | 0 => c
  | n + 1 => ((c.notifyN n).onIdTokenChanged).1

/-- Two-argument `CompleteTest(test_name, min_token_changes,
max_token_changes)` (lines 212–220). -/
def IdTokenChangeCounter.completeTest (c : IdTokenChangeCounter)
    (test_name : String) (lo hi : Int) : IdTokenChangeCounter × Report :=
  let success := decide (lo ≤ c.num_token_changes ∧ c.num_token_changes ≤ hi)
  (⟨0⟩, Report.counterReport "IdTokenListener" success c.num_token_changes test_name)

/-- One-argument `CompleteTest(test_name, token_changes)` (lines 208–210). -/
def IdTokenChangeCounter.completeTestExact (c : IdTokenChangeCounter)
    (test_name : String) (n : Int) : IdTokenChangeCounter × Report :=
  c.completeTest test_name n n

/-- The `success` flag a counter report was built with (`false` on any
non-counter report). -/
def Report.counterSuccess : Report → Bool
  | .counterReport _ s _ _ => s
  | _ => false

/-! ### Concrete environments used as test inputs -/

/-- An operation that is already settled with error code 17 and a message,
against an expectation of code 0: exercises the mismatch branch. -/
def env3 : FutureEnv where
  statusAt _ := FutureStatus.complete
  pump _ := false
  error := 17
  errorMessage := some "there was an error"
  result := none

/-- A forever-pending operation whose event pump requests shutdown on the
first call. -/
def envPendingShutdown : FutureEnv where
  statusAt _ := FutureStatus.pending
  pump _ := true
  error := 0
  errorMessage := none
  result := none

/-- An operation already settled with the success code 0. -/
def envCompleteOk : FutureEnv where
  statusAt _ := FutureStatus.complete
  pump _ := false
  error := 0
  errorMessage := some "no error"
  result := none

/-- An operation that was never started. -/
def envInvalid : FutureEnv where
  statusAt _ := FutureStatus.invalid
  pump _ := false
  error := 0
  errorMessage := none
  result := none

/-- An operation pending for exactly two pump calls (both returning
`false`), then settled with the success code 0. -/
def envTwoPolls : FutureEnv where
  statusAt n := if n < 2 then FutureStatus.pending else FutureStatus.complete
  pump _ := false
  error := 0
  errorMessage := some "no error"
  result := none

/-- A sign-in operation settled successfully whose stored `User*` is the
(arbitrary) pointer value 52. -/
def envSignIn : FutureEnv where
  statusAt _ := FutureStatus.complete
  pump _ := false
  error := 0
  errorMessage := some "no error"
  result := some 52

/-! ### Helper lemmas -/

/-- Starting from a freshly constructed (or just-reset) counter, `n`
notifications leave the count at `n`. -/
theorem AuthStateChangeCounter.notifyN_state_count (n : Nat) :
    (AuthStateChangeCounter.init.notifyN n).num_state_changes = (n : Int) := by
  induction n with
  | zero => rfl
  | succ k ih =>
    simp [AuthStateChangeCounter.notifyN, AuthStateChangeCounter.onAuthStateChanged, ih]

/-- Starting from a freshly constructed (or just-reset) counter, `n`
notifications leave the count at `n`. -/
theorem IdTokenChangeCounter.notifyN_token_count (n : Nat) :
    (IdTokenChangeCounter.init.notifyN n).num_token_changes = (n : Int) := by
  induction n with
  | zero => rfl
  | succ k ih =>
    simp [IdTokenChangeCounter.notifyN, IdTokenChangeCounter.onIdTokenChanged, ih]

/-- If the future stays pending through pump calls `start, …, start + k`,
the first `k` of those pump calls return `false`, and call `start + k`
returns `true`, the polling loop reports shutdown right after that call. -/
theorem waitLoop_shutdown :
    ∀ (fuel k start : Nat) (env : FutureEnv), k < fuel →
    (∀ j, j ≤ k → env.statusAt (start + j) = FutureStatus.pending) →
    (∀ j, j < k → env.pump (start + j) = false) →
    env.pump (start + k) = true →
    waitLoop env start fuel = some (true, start + k + 1) := by
  intro fuel
  induction fuel with
  | zero => intro k start env hk; omega
  | succ f ih =>
    intro k start env hk hst hpf hpt
    have h0 : env.statusAt start = FutureStatus.pending := by
      have := hst 0 (Nat.zero_le k); simpa using this
    cases k with
    | zero =>
      have hp : env.pump start = true := by simpa using hpt
      simp [waitLoop, h0, hp]
    | succ k' =>
      have hp0 : env.pump start = false := by
        have := hpf 0 (Nat.succ_pos k'); simpa using this
      have hrec : waitLoop env (start + 1) f = some (true, start + 1 + k' + 1) := by
        refine ih k' (start + 1) env (by omega) ?_ ?_ ?_
        · intro j hj
          have := hst (j + 1) (by omega)
          rwa [show start + (j + 1) = start + 1 + j by omega] at this
        · intro j hj
          have := hpf (j + 1) (by omega)
          rwa [show start + (j + 1) = start + 1 + j by omega] at this
        · have := hpt
          rwa [show start + (k' + 1) = start + 1 + k' by omega] at this
      have harith : start + 1 + k' + 1 = start + (k' + 1) + 1 := by omega
      simp [waitLoop, h0, hp0, hrec, harith]

/-- If the future stays pending through the first `k` status checks, those
`k` pump calls all return `false`, and the status check after them sees a
non-pending future, the loop exits normally after exactly `k` pump calls. -/
theorem waitLoop_completes :
    ∀ (fuel k start : Nat) (env : FutureEnv), k < fuel →
    (∀ j, j < k → env.statusAt (start + j) = FutureStatus.pending) →
    (∀ j, j < k → env.pump (start + j) = false) →
    env.statusAt (start + k) ≠ FutureStatus.pending →
    waitLoop env start fuel = some (false, start + k) := by
  intro fuel
  induction fuel with
  | zero => intro k start env hk; omega
  | succ f ih =>
    intro k start env hk hst hpf hend
    cases k with
    | zero =>
      have h0 : env.statusAt start ≠ FutureStatus.pending := by simpa using hend
      simp [waitLoop, h0]
    | succ k' =>
      have h0 : env.statusAt start = FutureStatus.pending := by
        have := hst 0 (Nat.succ_pos k'); simpa using this
      have hp0 : env.pump start = false := by
        have := hpf 0 (Nat.succ_pos k'); simpa using this
      have hrec : waitLoop env (start + 1) f = some (false, start + 1 + k') := by
        refine ih k' (start + 1) env (by omega) ?_ ?_ ?_
        · intro j hj
          have := hst (j + 1) (by omega)
          rwa [show start + (j + 1) = start + 1 + j by omega] at this
        · intro j hj
          have := hpf (j + 1) (by omega)
          rwa [show start + (j + 1) = start + 1 + j by omega] at this
        · have := hend
          rwa [show start + (k' + 1) = start + 1 + k' by omega] at this
      have harith : start + 1 + k' = start + (k' + 1) := by omega
      simp [waitLoop, h0, hp0, hrec, harith]

/-! ### Claims -/

/-- C4: for both listener counters, `CompleteTest(label, min, max)` after `n`
notifications since construction or the prior reset succeeds iff
`min ≤ n ≤ max`; the emitted report is error-classified exactly when the
verification fails; and the count is reset to 0 unconditionally. -/
theorem C4_verify_range_reset (label : String) (n : Nat) (lo hi : Int) :
    (((AuthStateChangeCounter.init.notifyN n).completeTest label lo hi).2.counterSuccess = true
        ↔ lo ≤ (n : Int) ∧ (n : Int) ≤ hi) ∧
    ((AuthStateChangeCounter.init.notifyN n).completeTest label lo hi).1.num_state_changes = 0 ∧
    ((AuthStateChangeCounter.init.notifyN n).completeTest label lo hi).2.isError
      = !((AuthStateChangeCounter.init.notifyN n).completeTest label lo hi).2.counterSuccess ∧
    (((IdTokenChangeCounter.init.notifyN n).completeTest label lo hi).2.counterSuccess = true
        ↔ lo ≤ (n : Int) ∧ (n : Int) ≤ hi) ∧
    ((IdTokenChangeCounter.init.notifyN n).completeTest label lo hi).1.num_token_changes = 0 ∧
    ((IdTokenChangeCounter.init.notifyN n).completeTest label lo hi).2.isError
      = !((IdTokenChangeCounter.init.notifyN n).completeTest label lo hi).2.counterSuccess := by
  refine ⟨?_, rfl, ?_, ?_, rfl, ?_⟩
  · simp [AuthStateChangeCounter.completeTest, Report.counterSuccess,
      AuthStateChangeCounter.notifyN_state_count]
  · simp [AuthStateChangeCounter.completeTest, Report.counterSuccess, Report.isError]
  · simp [IdTokenChangeCounter.completeTest, Report.counterSuccess,
      IdTokenChangeCounter.notifyN_token_count]
  · simp [IdTokenChangeCounter.completeTest, Report.counterSuccess, Report.isError]

/-- C7: each notification increments the count by exactly 1, so after `n`
notifications `CompleteTest(label, n, n)` succeeds, the count is 0 right
after any `CompleteTest`, and a following `CompleteTest(label2, 0, 0)`
succeeds. Shown for both listener counters. -/
theorem C7_exact_count_then_reset (label label2 : String) (n : Nat) (lo hi : Int) :
    (AuthStateChangeCounter.init.notifyN (n + 1)).num_state_changes
      = (AuthStateChangeCounter.init.notifyN n).num_state_changes + 1 ∧
    ((AuthStateChangeCounter.init.notifyN n).completeTest label n n).2.counterSuccess = true ∧
    ((AuthStateChangeCounter.init.notifyN n).completeTest label lo hi).1.num_state_changes = 0 ∧
    ((((AuthStateChangeCounter.init.notifyN n).completeTest label lo hi).1).completeTest
        label2 0 0).2.counterSuccess = true ∧
    (IdTokenChangeCounter.init.notifyN (n + 1)).num_token_changes
      = (IdTokenChangeCounter.init.notifyN n).num_token_changes + 1 ∧
    ((IdTokenChangeCounter.init.notifyN n).completeTest label n n).2.counterSuccess = true ∧
    ((IdTokenChangeCounter.init.notifyN n).completeTest label lo hi).1.num_token_changes = 0 ∧
    ((((IdTokenChangeCounter.init.notifyN n).completeTest label lo hi).1).completeTest
        label2 0 0).2.counterSuccess = true := by
  refine ⟨rfl, ?_, rfl, ?_, rfl, ?_, rfl, ?_⟩
  · simp [AuthStateChangeCounter.completeTest, Report.counterSuccess,
      AuthStateChangeCounter.notifyN_state_count]
  · simp [AuthStateChangeCounter.completeTest, Report.counterSuccess]
  · simp [IdTokenChangeCounter.completeTest, Report.counterSuccess,
      IdTokenChangeCounter.notifyN_token_count]
  · simp [IdTokenChangeCounter.completeTest, Report.counterSuccess]

/-- C8: the one-argument `CompleteTest(label, k)` produces exactly the same
report and post-state as the two-argument `CompleteTest(label, k, k)`, for
every counter state and every `k`, on both listener counters. -/
theorem C8_exact_is_sugar (c : AuthStateChangeCounter) (c2 : IdTokenChangeCounter)
    (label : String) (k : Int) :
    c.completeTestExact label k = c.completeTest label k k ∧
    c2.completeTestExact label k = c2.completeTest label k k :=
  ⟨rfl, rfl⟩

/-- C1: if the operation stays pending and any pump invocation returns
`true`, `WaitForFuture` returns `true` immediately after that invocation
(after exactly `k + 1` pump calls when the `true` arrives on call `k`),
having emitted only the progress log — no completion report. -/
theorem C1_shutdown_preempts (env : FutureEnv) (fn : String) (expected : Int)
    (log_error : Bool) (fuel k : Nat)
    (hfuel : k < fuel)
    (hpend : ∀ j, j ≤ k → env.statusAt j = FutureStatus.pending)
    (hfalse : ∀ j, j < k → env.pump j = false)
    (htrue : env.pump k = true) :
    WaitForFuture env fn expected log_error fuel
      = some (true, k + 1, [Report.calling fn]) ∧
    (Report.calling fn).isCompletion = false := by
  have hloop := waitLoop_shutdown fuel k 0 env hfuel
    (fun j hj => by simpa using hpend j hj)
    (fun j hj => by simpa using hfalse j hj)
    (by simpa using htrue)
  have hinv : ¬ env.statusAt 0 = FutureStatus.invalid := by
    rw [hpend 0 (Nat.zero_le k)]; simp
  simp only [Nat.zero_add] at hloop
  exact ⟨by simp [WaitForFuture, hinv, hloop], rfl⟩

/-- C1 at a concrete input: a pending operation whose pump requests
shutdown on the very first poll makes `wait` return `true` after exactly
one poll, with no completion report. -/
theorem C1_shutdown_preempts_witness :
    WaitForFuture envPendingShutdown "Auth.CreateUser" 0 true 1
      = some (true, 1, [Report.calling "Auth.CreateUser"]) ∧
    (Report.calling "Auth.CreateUser").isCompletion = false :=
  C1_shutdown_preempts envPendingShutdown "Auth.CreateUser" 0 true 1 0
    (Nat.zero_lt_one) (fun _ _ => rfl) (fun j hj => absurd hj (Nat.not_lt_zero j)) rfl

/-- C2: when the polling loop exits normally on a `Complete` operation
whose settled error code equals the expected one and logging is on,
`WaitForFuture` emits exactly one success-classified report (after the
progress log) and returns `false`. -/
theorem C2_success_report (env : FutureEnv) (fn : String) (expected : Int) (fuel k : Nat)
    (hinv : env.statusAt 0 ≠ FutureStatus.invalid)
    (hloop : waitLoop env 0 fuel = some (false, k))
    (_hcomp : env.statusAt k = FutureStatus.complete)
    (heq : env.error = expected) :
    ∃ r, WaitForFuture env fn expected true fuel
        = some (false, k, [Report.calling fn, r]) ∧
      r.isSuccessCompletion = true ∧ (Report.calling fn).isSuccessCompletion = false := by
  refine ⟨settledReport fn env.error expected env.errorMessage, ?_, ?_, rfl⟩
  · simp [WaitForFuture, hinv, hloop]
  · unfold settledReport
    rw [if_pos heq]
    cases env.errorMessage <;> rfl

/-- C2 at a concrete input: an operation already complete with the
expected code 0 yields one success report and `false`. -/
theorem C2_success_report_witness :
    ∃ r, WaitForFuture envCompleteOk "Auth.SignInAnonymously" 0 true 1
        = some (false, 0, [Report.calling "Auth.SignInAnonymously", r]) ∧
      r.isSuccessCompletion = true ∧
      (Report.calling "Auth.SignInAnonymously").isSuccessCompletion = false :=
  C2_success_report envCompleteOk "Auth.SignInAnonymously" 0 1 0 (by decide) rfl rfl rfl

/-- C3, counterexample: the claim says the mismatch report contains both
the expected and the actual error code, but the source's format string
`"ERROR: %s completed with error: %d, `%s`"` (line 100) prints only the
actual code. On an operation settled with code 17 against expected code 0,
the emitted mismatch report does not mention code 0. -/
theorem C3_counterexample_expected_code_absent :
    WaitForFuture env3 "Auth.TestSignIn" 0 true 1
      = some (false, 0, [Report.calling "Auth.TestSignIn",
          Report.completedError "Auth.TestSignIn" 17 (some "there was an error")]) ∧
    Report.mentionsCode
      (Report.completedError "Auth.TestSignIn" 17 (some "there was an error")) 0 = false :=
  ⟨rfl, rfl⟩

/-- C3, amended: on a code mismatch with logging on, `WaitForFuture` emits
one error-classified mismatch report carrying the actual error code and
the operation's error message (the expected code is not part of the
report), and returns `false`. -/
theorem C3_mismatch_report (env : FutureEnv) (fn : String) (expected : Int) (fuel k : Nat)
    (hinv : env.statusAt 0 ≠ FutureStatus.invalid)
    (hloop : waitLoop env 0 fuel = some (false, k))
    (hne : env.error ≠ expected) :
    WaitForFuture env fn expected true fuel
      = some (false, k, [Report.calling fn,
          Report.completedError fn env.error env.errorMessage]) ∧
    (Report.completedError fn env.error env.errorMessage).isError = true ∧
    Report.mentionsCode
      (Report.completedError fn env.error env.errorMessage) env.error = true := by
  refine ⟨?_, rfl, by simp [Report.mentionsCode]⟩
  simp [WaitForFuture, hinv, hloop, settledReport, hne]

/-- C3 (amended) at a concrete input: code 17 against expected 0. -/
theorem C3_mismatch_report_witness :
    WaitForFuture env3 "Auth.TestSignIn" 0 true 1
      = some (false, 0, [Report.calling "Auth.TestSignIn",
          Report.completedError "Auth.TestSignIn" 17 (some "there was an error")]) ∧
    (Report.completedError "Auth.TestSignIn" 17 (some "there was an error")).isError = true ∧
    Report.mentionsCode
      (Report.completedError "Auth.TestSignIn" 17 (some "there was an error")) 17 = true :=
  C3_mismatch_report env3 "Auth.TestSignIn" 0 1 0 (by decide) rfl (by decide)

/-- C5: an operation that is `Invalid` at wait time makes `WaitForFuture`
emit one error-classified report and return `false` with zero pump calls
(the event pump is never invoked), for any `log_error` and any fuel. -/
theorem C5_invalid_no_poll (env : FutureEnv) (fn : String) (expected : Int)
    (log_error : Bool) (fuel : Nat)
    (h : env.statusAt 0 = FutureStatus.invalid) :
    WaitForFuture env fn expected log_error fuel
      = some (false, 0, [Report.invalidFuture fn]) ∧
    (Report.invalidFuture fn).isError = true :=
  ⟨by simp [WaitForFuture, h], rfl⟩

/-- C5 at a concrete input: a never-started operation. -/
theorem C5_invalid_no_poll_witness :
    WaitForFuture envInvalid "Auth.DeleteUser" 0 true 5
      = some (false, 0, [Report.invalidFuture "Auth.DeleteUser"]) ∧
    (Report.invalidFuture "Auth.DeleteUser").isError = true :=
  C5_invalid_no_poll envInvalid "Auth.DeleteUser" 0 true 5 rfl

/-- C6: an operation pending through two pump calls, both returning
`false`, and complete with the expected code on the next status check,
makes `WaitForFuture` pump exactly twice, emit a success report and
return `false`. -/
theorem C6_two_polls_then_success (env : FutureEnv) (fn : String) (expected : Int) (fuel : Nat)
    (h0 : env.statusAt 0 = FutureStatus.pending)
    (h1 : env.statusAt 1 = FutureStatus.pending)
    (h2 : env.statusAt 2 = FutureStatus.complete)
    (p0 : env.pump 0 = false) (p1 : env.pump 1 = false)
    (heq : env.error = expected) (hfuel : 3 ≤ fuel) :
    ∃ r, WaitForFuture env fn expected true fuel
        = some (false, 2, [Report.calling fn, r]) ∧ r.isSuccessCompletion = true := by
  have hst : ∀ j, j < 2 → env.statusAt (0 + j) = FutureStatus.pending := by
    intro j hj
    interval_cases j
    · simpa using h0
    · simpa using h1
  have hpf : ∀ j, j < 2 → env.pump (0 + j) = false := by
    intro j hj
    interval_cases j
    · simpa using p0
    · simpa using p1
  have hend : env.statusAt (0 + 2) ≠ FutureStatus.pending := by
    have : env.statusAt (0 + 2) = FutureStatus.complete := by simpa using h2
    rw [this]; simp
  have hloop : waitLoop env 0 fuel = some (false, 2) := by
    simpa using waitLoop_completes fuel 2 0 env (by omega) hst hpf hend
  have hinv : env.statusAt 0 ≠ FutureStatus.invalid := by rw [h0]; simp
  refine ⟨settledReport fn env.error expected env.errorMessage, ?_, ?_⟩
  · simp [WaitForFuture, hinv, hloop]
  · unfold settledReport
    rw [if_pos heq]
    cases env.errorMessage <;> rfl

/-- C6 at a concrete input: pending for two polls, then complete with the
expected code 0. -/
theorem C6_two_polls_then_success_witness :
    ∃ r, WaitForFuture envTwoPolls "Auth.UpdateEmail" 0 true 3
        = some (false, 2, [Report.calling "Auth.UpdateEmail", r]) ∧
      r.isSuccessCompletion = true :=
  C6_two_polls_then_success envTwoPolls "Auth.UpdateEmail" 0 3
    rfl rfl rfl rfl rfl rfl (Nat.le_refl 3)

/-- C9: whenever the base `WaitForFuture` returns, `WaitForSignInFuture`
returns the same boolean; when the base returns `true` the reports are
exactly the base's (no identity cross-check happens), and when it returns
`false` the variant at most appends a non-fatal user-mismatch report. -/
theorem C9_signin_returns_base (env : FutureEnv) (fn : String) (expected : Int)
    (currentUser : Int) (fuel : Nat) (b : Bool) (n : Nat) (rs : List Report)
    (h : WaitForFuture env fn expected true fuel = some (b, n, rs)) :
    ∃ rs', WaitForSignInFuture env fn expected currentUser fuel = some (b, rs') ∧
      (b = true → rs' = rs) ∧
      (rs' = rs ∨ rs' = rs ++ [Report.userMismatch fn (env.result.getD 0) currentUser]) := by
  cases b with
  | true =>
    exact ⟨rs, by simp [WaitForSignInFuture, h], fun _ => rfl, Or.inl rfl⟩
  | false =>
    by_cases hu : env.result.getD 0 = currentUser
    · exact ⟨rs, by simp [WaitForSignInFuture, h, hu], by simp, Or.inl rfl⟩
    · exact ⟨rs ++ [Report.userMismatch fn (env.result.getD 0) currentUser],
        by simp [WaitForSignInFuture, h, hu], by simp, Or.inr rfl⟩

/-- C9 at a concrete input: a successful sign-in whose stored user differs
from `auth->current_user()`; the mismatch is appended as a report and the
returned boolean is still the base's `false`. -/
theorem C9_signin_returns_base_witness :
    ∃ rs', WaitForSignInFuture envSignIn "Auth.SignInWithCredential" 0 7 1
        = some (false, rs') ∧
      (false = true →
        rs' = [Report.calling "Auth.SignInWithCredential",
               Report.completedExpected "Auth.SignInWithCredential"]) ∧
      (rs' = [Report.calling "Auth.SignInWithCredential",
              Report.completedExpected "Auth.SignInWithCredential"] ∨
       rs' = [Report.calling "Auth.SignInWithCredential",
              Report.completedExpected "Auth.SignInWithCredential"]
             ++ [Report.userMismatch "Auth.SignInWithCredential" (envSignIn.result.getD 0) 7]) :=
  C9_signin_returns_base envSignIn "Auth.SignInWithCredential" 0 7 1 false 0
    [Report.calling "Auth.SignInWithCredential",
     Report.completedExpected "Auth.SignInWithCredential"] rfl

/-- C10: with logging disabled, a wait whose loop exits normally on a
`Complete` operation emits only the progress log — no completion report of
either kind, whatever the expected code — and returns `false`. -/
theorem C10_no_logging_no_report (env : FutureEnv) (fn : String) (expected : Int) (fuel k : Nat)
    (hinv : env.statusAt 0 ≠ FutureStatus.invalid)
    (hloop : waitLoop env 0 fuel = some (false, k))
    (_hcomp : env.statusAt k = FutureStatus.complete) :
    WaitForFuture env fn expected false fuel = some (false, k, [Report.calling fn]) ∧
    ∀ r ∈ [Report.calling fn], r.isCompletion = false := by
  refine ⟨by simp [WaitForFuture, hinv, hloop], ?_⟩
  intro r hr
  rw [List.mem_singleton] at hr
  rw [hr]
  rfl

/-- C10 at a concrete input: logging disabled, operation complete with
code 0 while the caller expected 7 — still no completion report. -/
theorem C10_no_logging_no_report_witness :
    WaitForFuture envCompleteOk "Auth.Reauthenticate" 7 false 1
      = some (false, 0, [Report.calling "Auth.Reauthenticate"]) ∧
    ∀ r ∈ [Report.calling "Auth.Reauthenticate"], r.isCompletion = false :=
  C10_no_logging_no_report envCompleteOk "Auth.Reauthenticate" 7 1 0 (by decide) rfl rfl

end QuickstartAuth
